import Mathlib

/-!
Shallow embedding of the resilient-execution core (retry with exponential
backoff composed with a circuit breaker) from the repository source:
classes `RetryError`, `ExponentialBackoffRetry`, `CircuitBreaker`,
`RetryMechanism`.

Modelling conventions:
- JavaScript numbers holding delays and random draws become `ℚ`;
  timestamps (`Date.now()`) become `ℤ` values injected as explicit
  parameters; counters become `ℕ`.
- The protected async operation becomes a pure stream
  `fn : ℕ → Except JsErr α` giving the outcome of each invocation
  (invocation `k` is the one executed while the retry counter equals `k`).
- `Math.random()` becomes an explicit `rand : ℚ` parameter.
- JavaScript `x || d` defaulting (which replaces falsy values — absent,
  0, false — by `d`) is modelled by the `jsOr*` helpers on `Option`.
- Telemetry (`logger.info` / `logger.error`) becomes an accumulated
  `List LogEvent`; the opaque `context` passthrough field is omitted
  since no property depends on it.
-/

/-- A JavaScript error value, as the embedding distinguishes them:
an error thrown by the protected operation itself, the `Error` built by
the retry loop on exhaustion (`Failed after N retries: msg`), and the
`Error` with message Circuit breaker is OPEN thrown by the gate. -/
inductive JsErr where
  | op (msg : String)
  | exhausted (retries : ℕ) (msg : String)
  | circuitOpen
  deriving DecidableEq, Repr

/-- The `.message` property of the modelled error values. -/
def JsErr.message : JsErr → String
  | .op m => m
  | .exhausted r m => "Failed after " ++ toString r ++ " retries: " ++ m
  | .circuitOpen => "Circuit breaker is OPEN"

/-- `class RetryError extends Error`: wraps the error caught by
`RetryMechanism.execute` with the attempt count and total duration. -/
structure RetryError where
  originalError : JsErr
  attempts : ℕ
  duration : ℤ
  deriving DecidableEq, Repr

/-- One structured telemetry event handed to the logger sink
(`logSuccess` / `logFailure`); `duration` is only present on success
events and `error` only on failure events, mirroring the object literals
in the source. -/
structure LogEvent where
  event : String
  attempts : ℕ
  duration : Option ℤ := none
  error : Option String := none
  deriving DecidableEq, Repr

/-- JavaScript `x || d` on an optional number: absent or `0` (falsy)
falls back to the default. -/
def jsOrQ (x : Option ℚ) (d : ℚ) : ℚ :=
  match x with
  | none => d
  | some v => if v = 0 then d else v

/-- JavaScript `x || d` on an optional natural number. -/
def jsOrNat (x : Option ℕ) (d : ℕ) : ℕ :=
  match x with
  | none => d
  | some v => if v = 0 then d else v

/-- JavaScript `x || d` on an optional boolean: `false` is falsy, so it
also falls back to the default. -/
def jsOrBool (x : Option Bool) (d : Bool) : Bool :=
  match x with
  | none => d
  | some v => if v then v else d

/-- The `options` object accepted by the `ExponentialBackoffRetry`
constructor; a missing field is `none`. -/
structure RetryConfig where
  baseDelay : Option ℚ := none
  maxDelay : Option ℚ := none
  maxRetries : Option ℕ := none
  jitter : Option Bool := none

/-- `class ExponentialBackoffRetry`: the configuration state set by its
constructor. -/
structure ExponentialBackoffRetry where
  baseDelay : ℚ
  maxDelay : ℚ
  maxRetries : ℕ
  jitter : Bool
  deriving DecidableEq, Repr

/-- The constructor: each field is `options.f || default`. -/
def ExponentialBackoffRetry.new (options : RetryConfig) : ExponentialBackoffRetry :=
  { baseDelay := jsOrQ options.baseDelay 1000
    maxDelay := jsOrQ options.maxDelay 30000
    maxRetries := jsOrNat options.maxRetries 5
    jitter := jsOrBool options.jitter true }

/-- `calculateDelay(retryCount)` with the `Math.random()` draw passed in
as `rand`: `min(maxDelay, 2^retryCount * baseDelay)`, multiplied by
`(0.5 + rand)` when jitter is on. -/
def ExponentialBackoffRetry.calculateDelay (r : ExponentialBackoffRetry)
    (retryCount : ℕ) (rand : ℚ) : ℚ :=
  let delay := min r.maxDelay ((2 : ℚ) ^ retryCount * r.baseDelay)
  if r.jitter then delay * (1/2 + rand) else delay

/-- The body of the `while (true)` retry loop of `async execute(fn)`.
`retries` is the loop counter; `remaining` is the number of retries
still allowed, kept equal to `maxRetries - retries`, so `remaining = 0`
is exactly the exhaustion test `retries >= this.maxRetries` of the source.
`fn retries` is the outcome of the invocation made while the counter
equals `retries`, paired with the telemetry events that invocation
emitted (empty for a bare operation). Returns the final outcome, the
concatenated events, and the total number of invocations performed. On
exhaustion the loop throws a fresh
``Error(`Failed after ${retries} retries: ${error.message}`)``. -/
def retryRun {α : Type} (fn : ℕ → Except JsErr α × List LogEvent) :
    (remaining retries : ℕ) → Except JsErr α × List LogEvent × ℕ
  | remaining, retries =>
    match (fn retries).1 with
    | .ok a => (.ok a, (fn retries).2, retries + 1)
    | .error e =>
      match remaining with
      | 0 => (.error (.exhausted retries e.message), (fn retries).2, retries + 1)
      | remaining' + 1 =>
        let rest := retryRun fn remaining' (retries + 1)
        (rest.1, (fn retries).2 ++ rest.2.1, rest.2.2)

/-- `async execute(fn)`: runs the retry loop from `retries = 0` with
`maxRetries` retries allowed. -/
def ExponentialBackoffRetry.execute {α : Type} (r : ExponentialBackoffRetry)
    (fn : ℕ → Except JsErr α × List LogEvent) :
    Except JsErr α × List LogEvent × ℕ :=
  retryRun fn r.maxRetries 0

/-- The `options` object accepted by the `CircuitBreaker` constructor. -/
structure CircuitConfig where
  failureThreshold : Option ℕ := none
  resetTimeout : Option ℤ := none

/-- JavaScript `x || d` on an optional timestamp span. -/
def jsOrInt (x : Option ℤ) (d : ℤ) : ℤ :=
  match x with
  | none => d
  | some v => if v = 0 then d else v

/-- The `state` string of the circuit breaker: CLOSED, OPEN or
HALF_OPEN. -/
inductive CBState where
  | closed
  | open
  | halfOpen
  deriving DecidableEq, Repr

/-- `class CircuitBreaker`: configuration plus mutable runtime state.
`lastFailureTime` starts as `null` (`none`). -/
structure CircuitBreaker where
  failureThreshold : ℕ
  resetTimeout : ℤ
  failures : ℕ
  state : CBState
  lastFailureTime : Option ℤ
  deriving DecidableEq, Repr

/-- The constructor: defaults `failureThreshold || 5`,
`resetTimeout || 60000`, `failures = 0`, `state = CLOSED`,
`lastFailureTime = null`. -/
def CircuitBreaker.new (options : CircuitConfig) : CircuitBreaker :=
  { failureThreshold := jsOrNat options.failureThreshold 5
    resetTimeout := jsOrInt options.resetTimeout 60000
    failures := 0
    state := .closed
    lastFailureTime := none }

/-- `async execute(fn)`. `tGate` is the `Date.now()` of the gate check,
`tFail` the `Date.now()` recorded in the catch block; `fn` is the
outcome the wrapped operation would produce if invoked. Returns the
outcome of the call, the updated breaker, and whether `fn` was invoked.
`null - …` coercion: an absent `lastFailureTime` reads as `0`. -/
def CircuitBreaker.execute {α : Type} (cb : CircuitBreaker) (tGate tFail : ℤ)
    (fn : Except JsErr α) : Except JsErr α × CircuitBreaker × Bool :=
  if cb.state = .open ∧ tGate - (cb.lastFailureTime.getD 0) < cb.resetTimeout then
    (.error .circuitOpen, cb, false)
  else
    let cb1 := if cb.state = .open then { cb with state := .halfOpen } else cb
    match fn with
    | .ok a =>
      if cb1.state = .halfOpen then
        (.ok a, { cb1 with state := .closed, failures := 0 }, true)
      else
        (.ok a, cb1, true)
    | .error e =>
      let f := cb1.failures + 1
      (.error e,
       { cb1 with
          failures := f
          lastFailureTime := some tFail
          state := if cb1.failureThreshold ≤ f then .open else cb1.state },
       true)

/-- The `options` object accepted by the `RetryMechanism` constructor. -/
structure MechanismConfig where
  retry : RetryConfig := {}
  circuitBreaker : CircuitConfig := {}

/-- `class RetryMechanism`: composes the retrier and the breaker. -/
structure RetryMechanism where
  retrier : ExponentialBackoffRetry
  circuitBreaker : CircuitBreaker
  deriving DecidableEq, Repr

/-- The constructor: builds both sub-objects from the nested options. -/
def RetryMechanism.new (options : MechanismConfig) : RetryMechanism :=
  { retrier := ExponentialBackoffRetry.new options.retry
    circuitBreaker := CircuitBreaker.new options.circuitBreaker }

/-- `logSuccess(context, attempts, startTime)`: emits a
`retry_success` event with the elapsed duration. -/
def RetryMechanism.logSuccess (attempts : ℕ) (duration : ℤ) : LogEvent :=
  { event := "retry_success", attempts := attempts, duration := some duration }

/-- `logFailure(context, attempts, error)`: emits a `retry_failure`
event carrying the error message. -/
def RetryMechanism.logFailure (attempts : ℕ) (e : JsErr) : LogEvent :=
  { event := "retry_failure", attempts := attempts, error := some e.message }

/-- The result of one `RetryMechanism.execute` call: outcome, the
breaker state afterwards, the telemetry events emitted, and the final
value of the `attempts` counter. -/
structure MechanismResult (α : Type) where
  result : Except RetryError α
  circuitBreaker : CircuitBreaker
  events : List LogEvent
  attempts : ℕ
  deriving Repr

/-- The inner async closure passed by `RetryMechanism.execute` to the
retrier: invocation `k` runs under `attempts = k + 1`, logs a success
with the elapsed duration `dur` or a failure with the error, and
rethrows the error. -/
def wrapAttempt {α : Type} (fn : ℕ → Except JsErr α) (dur : ℤ) (k : ℕ) :
    Except JsErr α × List LogEvent :=
  match fn k with
  | .ok a => (.ok a, [RetryMechanism.logSuccess (k + 1) dur])
  | .error e => (.error e, [RetryMechanism.logFailure (k + 1) e])

/-- `async execute(fn, context)`. `fn k` is the outcome of the `k`-th
invocation of the protected operation (0-based); `startTime` is the
initial `Date.now()`, `endTime` the `Date.now()` of the terminal log or
of the `RetryError` construction, `tGate`/`tFail` the two breaker
clock reads. The inner closure increments `attempts`, logs, and
rethrows; the breaker gates the whole retry loop, so when it rejects,
no invocation happens, no event is emitted and `attempts` stays 0.
Any error caught at top level is wrapped in a `RetryError`. -/
def RetryMechanism.execute {α : Type} (rm : RetryMechanism)
    (fn : ℕ → Except JsErr α) (startTime endTime tGate tFail : ℤ) :
    MechanismResult α :=
  let inner := rm.retrier.execute (wrapAttempt fn (endTime - startTime))
  let gated := rm.circuitBreaker.execute tGate tFail inner.1
  let invoked := gated.2.2
  let attempts := if invoked then inner.2.2 else 0
  let events := if invoked then inner.2.1 else []
  match gated.1 with
  | .ok a =>
    { result := .ok a, circuitBreaker := gated.2.1, events := events, attempts := attempts }
  | .error e =>
    { result := .error ⟨e, attempts, endTime - startTime⟩
      circuitBreaker := gated.2.1, events := events, attempts := attempts }

/-! ## General lemmas about the retry loop and the breaker -/

/-- If every invocation fails, the retry loop started with `remaining`
retries left exhausts: it returns the wrapper error built from the last
message and performs `retries + remaining + 1` invocations in total. -/
theorem retryRun_fail {α : Type} (fn : ℕ → Except JsErr α × List LogEvent)
    (err : ℕ → JsErr) (hfn : ∀ k, (fn k).1 = .error (err k)) :
    ∀ remaining retries,
      (retryRun fn remaining retries).1
          = .error (.exhausted (retries + remaining) (err (retries + remaining)).message) ∧
      (retryRun fn remaining retries).2.2 = retries + remaining + 1 := by
  intro remaining
  induction remaining with
  | zero =>
    intro retries
    rw [retryRun]
    split
    next a ha => rw [hfn retries] at ha; exact absurd ha (by simp)
    next e he =>
      rw [hfn retries] at he
      injection he with h
      subst h
      simp
  | succ n ih =>
    intro retries
    have h := ih (retries + 1)
    rw [retryRun]
    split
    next a ha => rw [hfn retries] at ha; exact absurd ha (by simp)
    next e he =>
      refine ⟨?_, ?_⟩
      · rw [show retries + (n + 1) = retries + 1 + n by omega]
        exact h.1
      · rw [h.2]; omega

/-- Any property satisfied by every event an invocation can emit is
satisfied by every event the retry loop accumulates. -/
theorem retryRun_events {α : Type} (fn : ℕ → Except JsErr α × List LogEvent)
    (P : LogEvent → Prop) (hfn : ∀ k ev, ev ∈ (fn k).2 → P ev) :
    ∀ remaining retries ev, ev ∈ (retryRun fn remaining retries).2.1 → P ev := by
  intro remaining
  induction remaining with
  | zero =>
    intro retries ev hev
    rw [retryRun] at hev
    split at hev
    next a ha => exact hfn _ _ hev
    next e he => exact hfn _ _ hev
  | succ n ih =>
    intro retries ev hev
    rw [retryRun] at hev
    split at hev
    next a ha => exact hfn _ _ hev
    next e he =>
      rcases List.mem_append.mp hev with hev | hev
      · exact hfn _ _ hev
      · exact ih _ _ hev

/-- A successful call through a Closed breaker passes through and leaves
the whole breaker record unchanged. -/
theorem cb_execute_closed_ok {α : Type} (cb : CircuitBreaker) (h : cb.state = .closed)
    (tG tF : ℤ) (a : α) :
    cb.execute tG tF (.ok a) = (.ok a, cb, true) := by
  simp [CircuitBreaker.execute, h]

/-- A failing call through a Closed breaker increments `failures`,
records the failure time, and opens the circuit exactly when the
threshold is reached. -/
theorem cb_execute_closed_error {α : Type} (cb : CircuitBreaker) (h : cb.state = .closed)
    (tG tF : ℤ) (e : JsErr) :
    cb.execute tG tF (.error e : Except JsErr α) =
      (.error e,
       { cb with
          failures := cb.failures + 1
          lastFailureTime := some tF
          state := if cb.failureThreshold ≤ cb.failures + 1 then .open else .closed },
       true) := by
  simp [CircuitBreaker.execute, h]

/-- When the protected operation always fails, so does every wrapped
attempt, with the same error. -/
theorem wrapAttempt_fail {α : Type} (fn : ℕ → Except JsErr α) (m : ℕ → String)
    (hfn : ∀ k, fn k = .error (.op (m k))) (dur : ℤ) :
    ∀ k, (wrapAttempt fn dur k).1 = .error (.op (m k)) := by
  intro k
  simp [wrapAttempt, hfn k]

/-! ## Claim theorems -/

/-- C1: with `maxRetries = 1` and `failureThreshold = 2`, an operation
failing on every invocation drives each top-level `RetryMechanism.execute`
call through 2 inner attempts that count as exactly one breaker failure,
so after the first call the breaker is still Closed with one failure and
after the second call it is Open with two failures. -/
theorem c1_exhausted_retry_loop_counts_as_one_circuit_failure
    (err : ℕ → JsErr) (s1 e1 g1 f1 s2 e2 g2 f2 : ℤ) :
    let rm := RetryMechanism.new { retry := { maxRetries := some 1 }
                                   circuitBreaker := { failureThreshold := some 2 } }
    let fn : ℕ → Except JsErr Unit := fun k => .error (err k)
    let r1 := rm.execute fn s1 e1 g1 f1
    let r2 := ({ rm with circuitBreaker := r1.circuitBreaker } : RetryMechanism).execute
        fn s2 e2 g2 f2
    r1.attempts = 2 ∧ r1.circuitBreaker.failures = 1 ∧
      r1.circuitBreaker.state = .closed ∧ r2.attempts = 2 ∧
      r2.circuitBreaker.failures = 2 ∧ r2.circuitBreaker.state = .open := by
  intro rm fn r1 r2
  exact ⟨rfl, rfl, rfl, rfl, rfl, rfl⟩

/-- C2: a breaker with `failureThreshold = 3` and `resetTimeout = 100`
opens after three consecutive failures; while Open, a call before the
reset timeout is rejected with the circuit-open error without invoking
the operation; a call at or after the timeout is admitted as a HalfOpen
trial whose success closes the circuit and resets the counter, and whose
failure reopens it immediately. -/
theorem c2_circuit_breaker_threshold_open_halfopen_lifecycle
    (m1 m2 m3 m5 : String) (g1 f1 g2 f2 g3 f3 g4 f4 g5 f5 : ℤ)
    (x : Except JsErr Unit) (h4 : g4 - f3 < 100) (h5 : 100 ≤ g5 - f3) :
    let cb0 := CircuitBreaker.new { failureThreshold := some 3, resetTimeout := some 100 }
    let cb1 := (cb0.execute g1 f1 (.error (.op m1) : Except JsErr Unit)).2.1
    let cb2 := (cb1.execute g2 f2 (.error (.op m2) : Except JsErr Unit)).2.1
    let cb3 := (cb2.execute g3 f3 (.error (.op m3) : Except JsErr Unit)).2.1
    cb3.state = .open ∧ cb3.failures = 3 ∧
    cb3.execute g4 f4 x = (.error .circuitOpen, cb3, false) ∧
    cb3.execute g5 f5 (.ok () : Except JsErr Unit) =
      (.ok (), { cb3 with state := .closed, failures := 0 }, true) ∧
    (cb3.execute g5 f5 (.error (.op m5) : Except JsErr Unit)).2.1.state = .open ∧
    (cb3.execute g5 f5 (.error (.op m5) : Except JsErr Unit)).2.2 = true := by
  intro cb0 cb1 cb2 cb3
  have hcb3 : cb3 = ⟨3, 100, 3, .open, some f3⟩ := rfl
  refine ⟨rfl, rfl, ?_, ?_, ?_, ?_⟩
  · rw [hcb3]; simp [CircuitBreaker.execute, h4]
  · rw [hcb3]; simp [CircuitBreaker.execute, not_lt.mpr h5]
  · rw [hcb3]; simp [CircuitBreaker.execute, not_lt.mpr h5]
  · rw [hcb3]; simp [CircuitBreaker.execute, not_lt.mpr h5]

/-- Witness for C2 at concrete failure times 0, 0, 10, gate times 50
(rejected, since 50 - 10 < 100) and 110 (admitted, since 110 - 10 ≥ 100). -/
theorem c2_circuit_breaker_lifecycle_witness :
    ((50 : ℤ) - 10 < 100) ∧ ((100 : ℤ) ≤ 110 - 10) ∧
    (let cb0 := CircuitBreaker.new { failureThreshold := some 3, resetTimeout := some 100 }
     let cb1 := (cb0.execute 0 0 (.error (.op "a") : Except JsErr Unit)).2.1
     let cb2 := (cb1.execute 0 0 (.error (.op "b") : Except JsErr Unit)).2.1
     let cb3 := (cb2.execute 0 10 (.error (.op "c") : Except JsErr Unit)).2.1
     cb3.state = .open ∧ cb3.failures = 3 ∧
     cb3.execute 50 20 (.ok () : Except JsErr Unit) = (.error .circuitOpen, cb3, false) ∧
     cb3.execute 110 115 (.ok () : Except JsErr Unit) =
       (.ok (), { cb3 with state := .closed, failures := 0 }, true) ∧
     (cb3.execute 110 115 (.error (.op "e") : Except JsErr Unit)).2.1.state = .open ∧
     (cb3.execute 110 115 (.error (.op "e") : Except JsErr Unit)).2.2 = true) := by
  have h4 : (50 : ℤ) - 10 < 100 := by norm_num
  have h5 : (100 : ℤ) ≤ 110 - 10 := by norm_num
  exact ⟨h4, h5,
    c2_circuit_breaker_threshold_open_halfopen_lifecycle "a" "b" "c" "e"
      0 0 0 0 0 10 50 20 110 115 (.ok ()) h4 h5⟩

/-- C3: with `maxRetries = 2`, an always-failing operation is invoked
exactly 3 times and the caller receives a `RetryError` whose `attempts`
field equals 3. -/
theorem c3_maxRetries_two_three_invocations_attempts_three
    (err : ℕ → JsErr) (s e g f : ℤ) :
    let run := (RetryMechanism.new { retry := { maxRetries := some 2 } }).execute
        (fun k => .error (err k) : ℕ → Except JsErr Unit) s e g f
    run.attempts = 3 ∧ run.result = .error ⟨.exhausted 2 (err 2).message, 3, e - s⟩ := by
  intro run
  exact ⟨rfl, rfl⟩

/-- C4: for every attempt index, with jitter disabled `calculateDelay`
returns exactly `min(maxDelay, baseDelay * 2^i)`, and with jitter
enabled it returns that value times `0.5 + rand` for the fresh draw
`rand ∈ [0, 1)`, hence lies in `[0.5, 1.5)` times the un-jittered
value (for positive configuration values as the data-model invariant
requires). -/
theorem c4_calculateDelay_formula_and_jitter_bounds
    (r : ExponentialBackoffRetry) (i : ℕ) (rand : ℚ)
    (hb : 0 < r.baseDelay) (hm : 0 < r.maxDelay) (h0 : 0 ≤ rand) (h1 : rand < 1) :
    (r.jitter = false → r.calculateDelay i rand = min r.maxDelay ((2 : ℚ) ^ i * r.baseDelay)) ∧
    (r.jitter = true →
      r.calculateDelay i rand = min r.maxDelay ((2 : ℚ) ^ i * r.baseDelay) * (1/2 + rand) ∧
      min r.maxDelay ((2 : ℚ) ^ i * r.baseDelay) * (1/2) ≤ r.calculateDelay i rand ∧
      r.calculateDelay i rand < min r.maxDelay ((2 : ℚ) ^ i * r.baseDelay) * (3/2)) := by
  have hv : 0 < min r.maxDelay ((2 : ℚ) ^ i * r.baseDelay) :=
    lt_min hm (by positivity)
  constructor
  · intro hj
    simp [ExponentialBackoffRetry.calculateDelay, hj]
  · intro hj
    refine ⟨by simp [ExponentialBackoffRetry.calculateDelay, hj], ?_, ?_⟩
    · simp only [ExponentialBackoffRetry.calculateDelay, hj, if_true]
      exact mul_le_mul_of_nonneg_left (by linarith) hv.le
    · simp only [ExponentialBackoffRetry.calculateDelay, hj, if_true]
      exact mul_lt_mul_of_pos_left (by linarith) hv

/-- Witness for C4 at the default configuration, attempt index 2 and
random draw 1/4. -/
theorem c4_calculateDelay_witness :
    (0 : ℚ) < (ExponentialBackoffRetry.new {}).baseDelay ∧
    (0 : ℚ) < (ExponentialBackoffRetry.new {}).maxDelay ∧
    (0 : ℚ) ≤ 1/4 ∧ (1/4 : ℚ) < 1 ∧
    (((ExponentialBackoffRetry.new {}).jitter = false →
      (ExponentialBackoffRetry.new {}).calculateDelay 2 (1/4) =
        min (ExponentialBackoffRetry.new {}).maxDelay
          ((2 : ℚ) ^ 2 * (ExponentialBackoffRetry.new {}).baseDelay)) ∧
     ((ExponentialBackoffRetry.new {}).jitter = true →
      (ExponentialBackoffRetry.new {}).calculateDelay 2 (1/4) =
        min (ExponentialBackoffRetry.new {}).maxDelay
          ((2 : ℚ) ^ 2 * (ExponentialBackoffRetry.new {}).baseDelay) * (1/2 + 1/4) ∧
      min (ExponentialBackoffRetry.new {}).maxDelay
          ((2 : ℚ) ^ 2 * (ExponentialBackoffRetry.new {}).baseDelay) * (1/2) ≤
        (ExponentialBackoffRetry.new {}).calculateDelay 2 (1/4) ∧
      (ExponentialBackoffRetry.new {}).calculateDelay 2 (1/4) <
        min (ExponentialBackoffRetry.new {}).maxDelay
          ((2 : ℚ) ^ 2 * (ExponentialBackoffRetry.new {}).baseDelay) * (3/2))) := by
  have hb : (0 : ℚ) < (ExponentialBackoffRetry.new {}).baseDelay := by
    norm_num [ExponentialBackoffRetry.new, jsOrQ]
  have hm : (0 : ℚ) < (ExponentialBackoffRetry.new {}).maxDelay := by
    norm_num [ExponentialBackoffRetry.new, jsOrQ]
  have h0 : (0 : ℚ) ≤ 1/4 := by norm_num
  have h1 : (1/4 : ℚ) < 1 := by norm_num
  exact ⟨hb, hm, h0, h1,
    c4_calculateDelay_formula_and_jitter_bounds (ExponentialBackoffRetry.new {}) 2 (1/4)
      hb hm h0 h1⟩

/-- C5: evaluation of the code at the failing input. Constructing with
`maxRetries = 0` does not keep 0: the JavaScript `options.maxRetries || 5`
defaulting coerces the falsy 0 to 5, so an always-failing operation is
invoked 6 times, not once. -/
theorem c5_maxRetries_zero_coerced_to_five_six_invocations (m : ℕ → String) :
    (ExponentialBackoffRetry.new { maxRetries := some 0 }).maxRetries = 5 ∧
    ((ExponentialBackoffRetry.new { maxRetries := some 0 }).execute
        (fun k => ((Except.error (JsErr.op (m k)) : Except JsErr Unit), []))).2.2 = 6 :=
  ⟨rfl, rfl⟩

/-- C6 counterexample: with `maxRetries = 1` and an operation that always
fails with message boom, the `RetryError` handed to the caller carries as
`originalError` the synthetic exhaustion wrapper, which differs from the
last underlying operation error. -/
theorem c6_originalError_is_wrapper_counterexample :
    ((RetryMechanism.new { retry := { maxRetries := some 1 } }).execute
        (fun _ => (Except.error (JsErr.op "boom") : Except JsErr Unit)) 0 7 0 5).result =
      .error ⟨.exhausted 1 "boom", 2, 7⟩ ∧
    JsErr.exhausted 1 "boom" ≠ JsErr.op "boom" :=
  ⟨rfl, by decide⟩

/-- C6 amended: on exhaustion the `RetryError` carries the attempt count
and the total elapsed duration, but its `originalError` is the fresh
wrapper error whose message embeds the message of the last underlying
operation error (`Failed after maxRetries retries: msg`), not that
underlying error itself. -/
theorem c6_retryError_wraps_exhaustion_error
    (o : MechanismConfig) (m : ℕ → String) (s e g f : ℤ) :
    ((RetryMechanism.new o).execute
        (fun k => .error (.op (m k)) : ℕ → Except JsErr Unit) s e g f).result =
      .error ⟨.exhausted (ExponentialBackoffRetry.new o.retry).maxRetries
                (m (ExponentialBackoffRetry.new o.retry).maxRetries),
              (ExponentialBackoffRetry.new o.retry).maxRetries + 1, e - s⟩ := by
  have hw := wrapAttempt_fail (fun k => .error (.op (m k)) : ℕ → Except JsErr Unit) m
    (fun k => rfl) (e - s)
  have hfail := retryRun_fail _ _ hw (ExponentialBackoffRetry.new o.retry).maxRetries 0
  have hclosed : (CircuitBreaker.new o.circuitBreaker).state = .closed := rfl
  simp only [RetryMechanism.execute, ExponentialBackoffRetry.execute, RetryMechanism.new]
  rw [hfail.1, cb_execute_closed_error (CircuitBreaker.new o.circuitBreaker) hclosed]
  simp [hfail.2, JsErr.message]

/-- C7 counterexample: constructing with `baseDelay = 5000` and
`maxDelay = 10` (malformed, since `maxDelay < baseDelay`) is accepted:
the constructor performs no validation and the instance retains the
malformed values, refuting a construction-time configuration error. -/
theorem c7_malformed_config_accepted_counterexample :
    (ExponentialBackoffRetry.new { baseDelay := some 5000, maxDelay := some 10 }).baseDelay
        = 5000 ∧
    (ExponentialBackoffRetry.new { baseDelay := some 5000, maxDelay := some 10 }).maxDelay
        = 10 ∧
    (10 : ℚ) < 5000 := by
  refine ⟨?_, ?_, by norm_num⟩ <;> norm_num [ExponentialBackoffRetry.new, jsOrQ]

/-- C7 amended: the constructor validates nothing — any non-falsy
`baseDelay` and `maxDelay` are stored as given, even when
`maxDelay < baseDelay`; `calculateDelay` is total and simply computes
with the stored values. -/
theorem c7_constructor_accepts_any_config (b M : ℚ) (hb : b ≠ 0) (hM : M ≠ 0) :
    (ExponentialBackoffRetry.new { baseDelay := some b, maxDelay := some M }).baseDelay = b ∧
    (ExponentialBackoffRetry.new { baseDelay := some b, maxDelay := some M }).maxDelay = M := by
  constructor <;> simp [ExponentialBackoffRetry.new, jsOrQ, hb, hM]

/-- Witness for the amended C7 at the malformed configuration
`baseDelay = 5000`, `maxDelay = 10`. -/
theorem c7_constructor_accepts_any_config_witness :
    (5000 : ℚ) ≠ 0 ∧ (10 : ℚ) ≠ 0 ∧
    ((ExponentialBackoffRetry.new { baseDelay := some 5000, maxDelay := some 10 }).baseDelay
        = 5000 ∧
     (ExponentialBackoffRetry.new { baseDelay := some 5000, maxDelay := some 10 }).maxDelay
        = 10) := by
  have h1 : (5000 : ℚ) ≠ 0 := by norm_num
  have h2 : (10 : ℚ) ≠ 0 := by norm_num
  exact ⟨h1, h2, c7_constructor_accepts_any_config 5000 10 h1 h2⟩

/-- C8 counterexample: a failing inner attempt is reported with event
name retry_failure, which is none of the three names the claim allows
(attempt_failure, retry_success, retry_exhausted). -/
theorem c8_event_name_counterexample :
    ((RetryMechanism.new {}).execute
        (fun _ => (Except.error (JsErr.op "x") : Except JsErr Unit)) 0 9 0 4).events.head? =
      some ⟨"retry_failure", 1, none, some "x"⟩ ∧
    ("retry_failure" ≠ "attempt_failure" ∧ "retry_failure" ≠ "retry_success" ∧
     "retry_failure" ≠ "retry_exhausted") :=
  ⟨rfl, by decide⟩

/-- C8 amended: every structured event the core emits has its event
field equal to one of exactly retry_failure (each failing inner attempt,
logged before the loop decides to retry or exhaust) or retry_success
(a final success); exhaustion emits no separate event. -/
theorem c8_all_events_retry_failure_or_success
    (α : Type) (o : MechanismConfig) (fn : ℕ → Except JsErr α)
    (s e g f : ℤ) (ev : LogEvent)
    (hev : ev ∈ ((RetryMechanism.new o).execute fn s e g f).events) :
    ev.event = "retry_failure" ∨ ev.event = "retry_success" := by
  have hwrap : ∀ k ev, ev ∈ (wrapAttempt fn (e - s) k).2 →
      (ev.event = "retry_failure" ∨ ev.event = "retry_success") := by
    intro k ev h
    cases hk : fn k with
    | ok a =>
      simp only [wrapAttempt, hk, List.mem_singleton] at h
      subst h
      right; rfl
    | error er =>
      simp only [wrapAttempt, hk, List.mem_singleton] at h
      subst h
      left; rfl
  simp only [RetryMechanism.execute, ExponentialBackoffRetry.execute] at hev
  split at hev
  · dsimp only at hev
    split at hev
    · exact retryRun_events _ _ hwrap _ _ _ hev
    · simp at hev
  · dsimp only at hev
    split at hev
    · exact retryRun_events _ _ hwrap _ _ _ hev
    · simp at hev

/-- Witness for the amended C8: the success event of a run that succeeds
on the first invocation. -/
theorem c8_all_events_witness :
    (⟨"retry_success", 1, some 5, none⟩ : LogEvent) ∈
      ((RetryMechanism.new {}).execute
          (fun _ => (Except.ok () : Except JsErr Unit)) 0 5 0 0).events ∧
    ((⟨"retry_success", 1, some 5, none⟩ : LogEvent).event = "retry_failure" ∨
     (⟨"retry_success", 1, some 5, none⟩ : LogEvent).event = "retry_success") := by
  have hmem : (⟨"retry_success", 1, some 5, none⟩ : LogEvent) ∈
      ((RetryMechanism.new {}).execute
          (fun _ => (Except.ok () : Except JsErr Unit)) 0 5 0 0).events := by
    decide
  exact ⟨hmem, c8_all_events_retry_failure_or_success Unit {} _ 0 5 0 0 _ hmem⟩

/-- C9: a successful call through a Closed breaker leaves the whole
record — in particular `failures` — unchanged, so failures accumulate
across interleaved successes and the threshold can be reached by
non-consecutive failures: with `failureThreshold = 3`, the sequence
fail, success, fail, success, fail opens the circuit. -/
theorem c9_closed_success_preserves_failures
    (cb : CircuitBreaker) (h : cb.state = .closed) (tG tF : ℤ)
    (α : Type) (a : α) :
    cb.execute tG tF (.ok a) = (.ok a, cb, true) ∧
    (let cb0 := CircuitBreaker.new { failureThreshold := some 3 }
     let d1 := (cb0.execute 0 1 (.error (.op "a") : Except JsErr Unit)).2.1
     let d2 := (d1.execute 2 3 (.ok () : Except JsErr Unit)).2.1
     let d3 := (d2.execute 4 5 (.error (.op "b") : Except JsErr Unit)).2.1
     let d4 := (d3.execute 6 7 (.ok () : Except JsErr Unit)).2.1
     let d5 := (d4.execute 8 9 (.error (.op "c") : Except JsErr Unit)).2.1
     d5.state = .open ∧ d5.failures = 3) := by
  refine ⟨cb_execute_closed_ok cb h tG tF a, ?_⟩
  exact ⟨rfl, rfl⟩

/-- Witness for C9 at a concrete Closed breaker with two accumulated
failures. -/
theorem c9_closed_success_witness :
    (⟨5, 60000, 2, CBState.closed, some 0⟩ : CircuitBreaker).state = .closed ∧
    ((⟨5, 60000, 2, CBState.closed, some 0⟩ : CircuitBreaker).execute 3 4
        (.ok () : Except JsErr Unit) =
      (.ok (), ⟨5, 60000, 2, CBState.closed, some 0⟩, true) ∧
     (let cb0 := CircuitBreaker.new { failureThreshold := some 3 }
      let d1 := (cb0.execute 0 1 (.error (.op "a") : Except JsErr Unit)).2.1
      let d2 := (d1.execute 2 3 (.ok () : Except JsErr Unit)).2.1
      let d3 := (d2.execute 4 5 (.error (.op "b") : Except JsErr Unit)).2.1
      let d4 := (d3.execute 6 7 (.ok () : Except JsErr Unit)).2.1
      let d5 := (d4.execute 8 9 (.error (.op "c") : Except JsErr Unit)).2.1
      d5.state = .open ∧ d5.failures = 3)) := by
  have h : (⟨5, 60000, 2, CBState.closed, some 0⟩ : CircuitBreaker).state = .closed := rfl
  exact ⟨h, c9_closed_success_preserves_failures _ h 3 4 Unit ()⟩

/-- C10: the jitter flag cannot be disabled through configuration — for
every options object, including `jitter = some false`, the constructed
instance has `jitter = true`, so every `calculateDelay` call multiplies
by the random jitter factor. -/
theorem c10_jitter_cannot_be_disabled (o : RetryConfig) (i : ℕ) (rand : ℚ) :
    (ExponentialBackoffRetry.new o).jitter = true ∧
    (ExponentialBackoffRetry.new o).calculateDelay i rand =
      min (ExponentialBackoffRetry.new o).maxDelay
        ((2 : ℚ) ^ i * (ExponentialBackoffRetry.new o).baseDelay) * (1/2 + rand) := by
  have hj : (ExponentialBackoffRetry.new o).jitter = true := by
    show jsOrBool o.jitter true = true
    unfold jsOrBool
    cases o.jitter with
    | none => rfl
    | some v => cases v <;> rfl
  exact ⟨hj, by simp [ExponentialBackoffRetry.calculateDelay, hj]⟩
